import Mathlib

/-!
Shallow embedding of the video-reader MCP server's planning layer
(`src/video-processor.ts` and the tool handlers in the server entry file).
JavaScript numbers are modelled as rationals (`ℚ`), counts and pixel
dimensions as naturals, and the integer results of `Math.ceil` /
`Math.round` / `Math.floor` as `ℤ` via `Int.ceil`, `round`, `Int.floor`.
External collaborators (ffprobe, the ffmpeg frame decoder and audio
extractor, the sharp image codec) are modelled as parameters or, where a
claim depends on their contract, from the spec's interface description.
-/

namespace VideoReader

/-- Token estimation constant `TOKENS_PER_KB_BASE64 = 1.33` from the source. -/
def TOKENS_PER_KB_BASE64 : ℚ := 133 / 100

/-- Token estimation constant `TOKENS_PER_CHAR = 0.25` from the source. -/
def TOKENS_PER_CHAR : ℚ := 1 / 4

/-- Constant `BASE_METADATA_TOKENS = 150` from the source. -/
def BASE_METADATA_TOKENS : ℤ := 150

/-- Constant `WARNING_TOKEN_THRESHOLD = 50000` from the source. -/
def WARNING_TOKEN_THRESHOLD : ℤ := 50000

/-- The `VideoMetadata` record produced by `getMetadata` (ffprobe result). -/
structure VideoMetadata where
  duration : ℚ
  width : ℕ
  height : ℕ
  fps : ℚ
  codec : String
  format : String
  bitrate : ℚ
  hasAudio : Bool
  audioCodec : Option String
  fileSize : Option ℕ
deriving DecidableEq

/-- JavaScript `Math.trunc` on a rational (rounds toward zero). -/
def jsTrunc (q : ℚ) : ℤ :=
  if q < 0 then ⌈q⌉ else ⌊q⌋

/-- JavaScript remainder `a % b` (sign of the dividend, truncated division). -/
def jsMod (a b : ℚ) : ℚ :=
  a - b * (jsTrunc (a / b) : ℚ)

/-- JavaScript `String.padStart(2, '0')`. -/
def padStart2 (s : String) : String :=
  if 2 ≤ s.length then s else if s.length = 1 then "0" ++ s else "00"

/-- `formatTimestamp`: seconds to `m:ss`. -/
def formatTimestamp (seconds : ℚ) : String :=
  let mins : ℤ := ⌊seconds / 60⌋
  let secs : ℤ := ⌊jsMod seconds 60⌋
  toString mins ++ ":" ++ padStart2 (toString secs)

/-- `estimateBase64Tokens`: token estimate from a base64 string length. -/
def estimateBase64Tokens (base64Length : ℕ) : ℤ :=
  let kbSize : ℚ := (base64Length : ℚ) / 1024
  ⌈kbSize * TOKENS_PER_KB_BASE64 * 1000 * TOKENS_PER_CHAR⌉

/-- `estimateFrameTokens`: per-frame token estimate from pixel dimensions
(the spec's `estimateArtifactTokens`), under total rational division.  The
`1/10` is the source's `0.1` bytes-per-pixel compression constant.  This
models the source's arithmetic faithfully for `width ≥ 1`; at `width = 0`
the source's floating-point division is `NaN`, which `estimateFrameTokensJS`
captures. -/
def estimateFrameTokens (width height : ℕ) : ℤ :=
  let effectiveWidth : ℕ := min width 1920
  let effectiveHeight : ℤ := round ((effectiveWidth : ℚ) * (height : ℚ) / (width : ℚ))
  let estimatedKB : ℚ := ((effectiveWidth : ℚ) * (effectiveHeight : ℚ) * (1 / 10)) / 1024
  ⌈estimatedKB * TOKENS_PER_KB_BASE64 * 1000 * TOKENS_PER_CHAR⌉

/-- `estimateFrameTokens` over JavaScript numbers, with `none` standing for
`NaN`.  When `width = 0` (reachable: `getMetadata` defaults a missing
stream width with `videoStream.width || 0`) the source computes
`effectiveWidth * height / width = (0 * height) / 0 = NaN`, and
`Math.round` and `Math.ceil` both propagate `NaN`, so the function returns
`NaN` rather than an integer; for every positive width all intermediate
values are finite and the result is `estimateFrameTokens`. -/
def estimateFrameTokensJS (width height : ℕ) : Option ℤ :=
  if width = 0 then none else some (estimateFrameTokens width height)

/-- Parameter payloads carried by `AnalysisHint.parameters` in the source. -/
inductive HintParams where
  | frames (maxFrames : ℕ) (interval : ℚ)
  | width (maxWidth : ℕ)
deriving DecidableEq

/-- The `AnalysisHint` record. -/
structure AnalysisHint where
  aspect : String
  recommendation : String
  parameters : Option HintParams
deriving DecidableEq

/-- `generateAnalysisHints`: duration / resolution / audio hints, in push order. -/
def generateAnalysisHints (m : VideoMetadata) : List AnalysisHint :=
  (if m.duration < 30 then
    [{ aspect := "duration"
       recommendation := "Short video - extract all key frames (5-10 frames recommended)"
       parameters := some (HintParams.frames 10 (max 1 (m.duration / 10))) }]
   else if m.duration < 300 then
    [{ aspect := "duration"
       recommendation := "Medium video - sample frames at regular intervals"
       parameters := some (HintParams.frames 15 ((⌊m.duration / 15⌋ : ℤ) : ℚ)) }]
   else
    [{ aspect := "duration"
       recommendation := "Long video - consider extracting frames progressively by time ranges"
       parameters := some (HintParams.frames 20 ((⌊m.duration / 20⌋ : ℤ) : ℚ)) }])
  ++ (if 1920 < m.width then
    [{ aspect := "resolution"
       recommendation := "High resolution video - frames will be resized to 1920px max width for efficiency"
       parameters := some (HintParams.width 1920) }]
     else [])
  ++ (if m.hasAudio then
    [{ aspect := "audio"
       recommendation := "Video has audio track - consider extracting for transcription"
       parameters := none }]
     else [])

/-- The `FrameReference` record: a planned, not-yet-extracted sampling point. -/
structure FrameReference where
  index : ℕ
  timestamp : ℚ
  timestampFormatted : String
  resolution : String
  estimatedTokens : ℤ
deriving DecidableEq

/-- The frame interval `Math.max(1, Math.floor(metadata.duration / frameCount))`
computed in `getVideoOverview`. -/
def frameInterval (m : VideoMetadata) (frameCount : ℕ) : ℤ :=
  max 1 ⌊m.duration / (frameCount : ℚ)⌋

/-- The frame reference pushed for index `i` in `getVideoOverview`'s loop. -/
def mkFrameRef (m : VideoMetadata) (ivl : ℤ) (i : ℕ) : FrameReference :=
  let timestamp : ℚ := (i : ℚ) * (ivl : ℚ)
  { index := i
    timestamp := timestamp
    timestampFormatted := formatTimestamp timestamp
    resolution := toString (min m.width 1920) ++ "x" ++
      toString (round ((min m.width 1920 : ℚ) * (m.height : ℚ) / (m.width : ℚ)))
    estimatedTokens := estimateFrameTokens m.width m.height }

/-- The loop `for (let i = 0; i < frameCount && i * frameInterval < duration; i++)`
from `getVideoOverview`, with remaining iteration budget `k` (so `i < frameCount`
becomes `k > 0`). -/
def planFramesGo (m : VideoMetadata) (ivl : ℤ) : ℕ → ℕ → List FrameReference
  | 0, _ => []
  | k + 1, i =>
    if (i : ℚ) * (ivl : ℚ) < m.duration then
      mkFrameRef m ivl i :: planFramesGo m ivl k (i + 1)
    else []

/-- The frame-reference planner of `getVideoOverview` (spec's `planFrames`). -/
def planFrames (m : VideoMetadata) (frameCount : ℕ) : List FrameReference :=
  planFramesGo m (frameInterval m frameCount) frameCount 0

/-- The `ContextHint.type` union from the source. -/
inductive HintType where
  | action
  | warning
  | info
  | suggestion
deriving DecidableEq

/-- The `ContextHint` record. -/
structure ContextHint where
  type : HintType
  message : String
  suggestedTool : Option String
  priority : ℕ
deriving DecidableEq

/-- `frames.reduce((sum, f) => sum + f.estimatedTokens, 0)` from
`generateContextHints`. -/
def totalFrameTokens (frames : List FrameReference) : ℤ :=
  frames.foldl (fun sum f => sum + f.estimatedTokens) 0

/-- The priority-10 warning hint pushed when the total estimate crosses the
threshold. -/
def warnHint (frames : List FrameReference) : ContextHint :=
  { type := HintType.warning
    message := "Extracting all " ++ toString frames.length ++ " frames would use ~" ++
      toString (round ((totalFrameTokens frames : ℚ) / 1000)) ++
      "K tokens. Consider fetching specific frames instead."
    suggestedTool := some "get_frame"
    priority := 10 }

/-- The priority-8 suggestion hint for videos longer than 300s. -/
def progressiveHint : ContextHint :=
  { type := HintType.suggestion
    message := "For long videos, fetch frames progressively: start with a few key timestamps, then request more if needed."
    suggestedTool := some "get_frame"
    priority := 8 }

/-- The priority-5 info hint when audio is present. -/
def audioInfoHint : ContextHint :=
  { type := HintType.info
    message := "Audio track available. Use extract_audio to get the audio file for transcription."
    suggestedTool := some "extract_audio"
    priority := 5 }

/-- The baseline priority-3 action hint, always pushed. -/
def actionHint : ContextHint :=
  { type := HintType.action
    message := "Review the frame timestamps above. Use get_frame to fetch specific frames for visual analysis."
    suggestedTool := some "get_frame"
    priority := 3 }

/-- The hints array of `generateContextHints` in push order, before sorting. -/
def preHints (m : VideoMetadata) (frames : List FrameReference) : List ContextHint :=
  (if WARNING_TOKEN_THRESHOLD < totalFrameTokens frames then [warnHint frames] else [])
  ++ (if 300 < m.duration then [progressiveHint] else [])
  ++ (if m.hasAudio then [audioInfoHint] else [])
  ++ [actionHint]

/-- The comparator `(a, b) => b.priority - a.priority`: `a` is placed before `b`
exactly when `a.priority ≥ b.priority`, stable on ties. -/
def hintLE (a b : ContextHint) : Prop := b.priority ≤ a.priority

instance hintLE.decRel : DecidableRel hintLE :=
  fun a b => Nat.decLe b.priority a.priority

/-- `hints.sort((a, b) => b.priority - a.priority)`: stable descending sort. -/
def sortHints (hints : List ContextHint) : List ContextHint :=
  List.insertionSort hintLE hints

/-- `generateContextHints`: build the hint array, then sort it descending. -/
def generateContextHints (m : VideoMetadata) (frames : List FrameReference) : List ContextHint :=
  sortHints (preHints m frames)

/-- `getResolutionLabel`: resolution tier by pixel count. -/
def getResolutionLabel (width height : ℕ) : String :=
  let pixels := width * height
  if 3840 * 2160 ≤ pixels then "4K Ultra HD"
  else if 1920 * 1080 ≤ pixels then "Full HD"
  else if 1280 * 720 ≤ pixels then "HD"
  else if 854 * 480 ≤ pixels then "SD"
  else "Low resolution"

/-- `getDurationLabel`: human duration tier. -/
def getDurationLabel (seconds : ℚ) : String :=
  if seconds < 60 then toString (round seconds) ++ " seconds"
  else if seconds < 3600 then toString (round (seconds / 60)) ++ " minutes"
  else
    toString ⌊seconds / 3600⌋ ++ "h " ++ toString (round (jsMod seconds 3600 / 60)) ++ "m"

/-- The `VideoMetadataSummary` record. -/
structure VideoMetadataSummary where
  durationFormatted : String
  resolution : String
  humanDescription : String
  analysisHints : List AnalysisHint
deriving DecidableEq

/-- `getMetadataSummary`, given the probed metadata. -/
def getMetadataSummary (m : VideoMetadata) : VideoMetadataSummary :=
  let resolutionLabel := getResolutionLabel m.width m.height
  let orient := if m.height < m.width then "landscape"
    else if m.width < m.height then "portrait" else "square"
  let durationLabel := getDurationLabel m.duration
  { durationFormatted := formatTimestamp m.duration
    resolution := toString m.width ++ "x" ++ toString m.height
    humanDescription := String.intercalate ", "
      [resolutionLabel, orient, "video", toString (round m.fps) ++ "fps", durationLabel,
        if m.hasAudio then "with audio" else "no audio"]
    analysisHints := generateAnalysisHints m }

/-- The `audio` sub-object of a `VideoOverview`. -/
structure AudioStatus where
  available : Bool
  durationSeconds : Option ℚ
deriving DecidableEq

/-- The `VideoOverview` aggregate returned by `getVideoOverview`. -/
structure VideoOverview where
  videoPath : String
  filename : String
  metadata : VideoMetadataSummary
  availableFrames : List FrameReference
  audio : AudioStatus
  contextHints : List ContextHint
deriving DecidableEq

/-- `path.basename`: the final path segment. -/
def basename (p : String) : String := (p.splitOn "/").getLastD p

/-- `getVideoOverview`, given the probed metadata (pure planning part;
the frame-cache write is modelled in `runTool`). -/
def getVideoOverview (m : VideoMetadata) (videoPath : String) (frameCount : ℕ) : VideoOverview :=
  let availableFrames := planFrames m frameCount
  { videoPath := videoPath
    filename := basename videoPath
    metadata := getMetadataSummary m
    availableFrames := availableFrames
    audio := { available := m.hasAudio
               durationSeconds := if m.hasAudio then some m.duration else none }
    contextHints := generateContextHints m availableFrames }

/-- The `TokenEstimate` record. -/
structure TokenEstimate where
  metadata : ℤ
  perFrame : ℤ
  total : ℤ
  warning : Option String
deriving DecidableEq

/-- `estimateTokens`, given the probed metadata. -/
def estimateTokens (m : VideoMetadata) (frameCount : ℕ) : TokenEstimate :=
  let perFrameTokens := estimateFrameTokens m.width m.height
  let total := BASE_METADATA_TOKENS + (frameCount : ℤ) * perFrameTokens
  { metadata := BASE_METADATA_TOKENS
    perFrame := perFrameTokens
    total := total
    warning :=
      if WARNING_TOKEN_THRESHOLD < total then
        some ("Estimated " ++ toString (round ((total : ℚ) / 1000)) ++
          "K tokens exceeds recommended limit. Consider reducing frame count or fetching frames progressively.")
      else none }

/-- Failure modes of the external frame decoder (spec §6 / §7). -/
inductive ExtractionError where
  | seekOutOfRange
  | decodeError (msg : String)
deriving DecidableEq

/-- Modelled from the spec: the external frame-decoder collaborator
(`decodeFrameAt(path, timestampSeconds) -> raw image bytes`, spec §6),
which "fails with `SeekOutOfRange`" when the requested timestamp lies
outside `[0, duration)`; on success it yields the decoded bytes.  The
repository delegates this range behaviour entirely to ffmpeg, so it is
not present under `src/`. -/
def decodeFrameAt (duration : ℚ) (rawFrame : List ℕ) (timestamp : ℚ) :
    Except ExtractionError (List ℕ) :=
  if 0 ≤ timestamp ∧ timestamp < duration then Except.ok rawFrame
  else Except.error ExtractionError.seekOutOfRange

/-- The `FrameData` record: a `FrameReference` plus payload. -/
structure FrameData where
  index : ℕ
  timestamp : ℚ
  timestampFormatted : String
  resolution : String
  estimatedTokens : ℤ
  base64 : String
  mimeType : String
deriving DecidableEq

/-- `extractSingleFrame`: run the decoder at `timestamp`; on failure the
rejection propagates (the temp file is removed on both paths); on success
the decoded bytes are resized/encoded by the external image codec
(abstracted as `encodeBase64` with final dimensions `finalWidth`,
`finalHeight`) and wrapped with the base64-length token estimate. -/
def extractSingleFrame (decoder : ℚ → Except ExtractionError (List ℕ))
    (encodeBase64 : List ℕ → String) (finalWidth finalHeight : ℕ)
    (fmt : String) (timestamp : ℚ) : Except ExtractionError FrameData :=
  match decoder timestamp with
  | Except.error e => Except.error e
  | Except.ok raw =>
    let base64 := encodeBase64 raw
    Except.ok
      { index := 0
        timestamp := timestamp
        timestampFormatted := formatTimestamp timestamp
        resolution := toString finalWidth ++ "x" ++ toString finalHeight
        estimatedTokens := estimateBase64Tokens base64.length
        base64 := base64
        mimeType := if fmt = "jpeg" then "image/jpeg" else "image/png" }

/-- The JSON body of a `get_frames_batch` response. -/
structure BatchResult where
  framesExtracted : ℕ
  totalTimestampsRequested : ℕ
  limited : Bool
  frames : List FrameData
deriving DecidableEq

/-- The `get_frames_batch` handler: `timestamps.slice(0, 5)` is mapped over
the single-frame extractor (abstracted as `extractFrame`; `Promise.all`
preserves the order of its input array). -/
def getFramesBatch (extractFrame : ℚ → FrameData) (timestamps : List ℚ) : BatchResult :=
  let limitedTimestamps := timestamps.take 5
  let frames := limitedTimestamps.map extractFrame
  { framesExtracted := frames.length
    totalTimestampsRequested := timestamps.length
    limited := decide (5 < timestamps.length)
    frames := frames }

/-- Side effects performed against the filesystem and the external media
engine, in the order the source issues them. -/
inductive Effect where
  | accessCheck
  | probe
  | statFile
  | mkdirTemp
  | decodeFrame
  | readTempFile
  | tempFileCreate
  | tempFileRemove
  | audioExtract
deriving DecidableEq

/-- Effects of `getMetadata`: one ffprobe call plus the `fs.stat` for file size. -/
def getMetadataEffects : List Effect := [Effect.probe, Effect.statFile]

/-- Effects of `getMetadataSummary`: it only calls `getMetadata`. -/
def getMetadataSummaryEffects : List Effect := getMetadataEffects

/-- Effects of `getVideoOverview`: `getMetadata`, then `getMetadataSummary`;
planning, token estimation, hint generation and the cache write are pure. -/
def getVideoOverviewEffects : List Effect :=
  getMetadataEffects ++ getMetadataSummaryEffects

/-- Effects of `extractSingleFrame`: temp dir, one ffmpeg frame decode writing
a temp file, the readback, and the `finally` removal. -/
def extractSingleFrameEffects : List Effect :=
  [Effect.mkdirTemp, Effect.decodeFrame, Effect.tempFileCreate,
   Effect.readTempFile, Effect.tempFileRemove]

/-- Effects of `extractAudio`: temp dir, then the ffmpeg audio extraction
writing the output file (which is returned, not removed). -/
def extractAudioEffects : List Effect :=
  [Effect.mkdirTemp, Effect.audioExtract, Effect.tempFileCreate]

/-- The `extract_audio` tool handler, given the probed metadata: after the
file-existence check and the probe, it returns the no-audio-track error
before invoking the extractor when `hasAudio` is false; otherwise it
delegates to `extractAudio` (whose produced path is `audioPath`).  Returns
the result together with the effect trace. -/
def extractAudioHandler (m : VideoMetadata) (audioPath : String) :
    Except String String × List Effect :=
  if m.hasAudio then
    (Except.ok audioPath, [Effect.accessCheck] ++ getMetadataEffects ++ extractAudioEffects)
  else
    (Except.error "Video does not have an audio track",
     [Effect.accessCheck] ++ getMetadataEffects)

/-- The per-path frame-reference cache `frameCache : Map<string, FrameReference[]>`. -/
abbrev Cache := String → Option (List FrameReference)

/-- `frameCache.set(videoPath, availableFrames)`. -/
def cacheSet (c : Cache) (p : String) (v : List FrameReference) : Cache :=
  fun q => if q = p then some v else c q

/-- A tool invocation, carrying the externally-supplied data each handler
consumes (probed metadata, decoded bytes, codec results). -/
inductive ToolCall where
  | overviewCall (videoPath : String) (frameCount : ℕ) (m : VideoMetadata)
  | metadataCall (videoPath : String) (m : VideoMetadata)
  | estimateCall (videoPath : String) (frameCount : ℕ) (m : VideoMetadata)
  | frameCall (duration timestamp : ℚ) (raw : List ℕ)
      (encodeBase64 : List ℕ → String) (finalWidth finalHeight : ℕ) (fmt : String)
  | batchCall (extractFrame : ℚ → FrameData) (timestamps : List ℚ)
  | audioCall (m : VideoMetadata) (audioPath : String)

/-- The payload a tool invocation returns. -/
inductive ToolOutput where
  | overviewOut (o : VideoOverview)
  | metadataOut (s : VideoMetadataSummary)
  | estimateOut (e : TokenEstimate)
  | frameOut (r : Except ExtractionError FrameData)
  | batchOut (b : BatchResult)
  | audioOut (r : Except String String)

/-- The tool dispatch of the server, threaded through the frame cache:
only `get_video_overview` touches the cache, and only with a `set`. -/
def runTool : ToolCall → Cache → ToolOutput × Cache
  | ToolCall.overviewCall p n m, c =>
    (ToolOutput.overviewOut (getVideoOverview m p n), cacheSet c p (planFrames m n))
  | ToolCall.metadataCall _ m, c => (ToolOutput.metadataOut (getMetadataSummary m), c)
  | ToolCall.estimateCall _ n m, c => (ToolOutput.estimateOut (estimateTokens m n), c)
  | ToolCall.frameCall d t raw enc w h fmt, c =>
    (ToolOutput.frameOut (extractSingleFrame (decodeFrameAt d raw) enc w h fmt t), c)
  | ToolCall.batchCall ex ts, c => (ToolOutput.batchOut (getFramesBatch ex ts), c)
  | ToolCall.audioCall m ap, c => (ToolOutput.audioOut (extractAudioHandler m ap).1, c)

/-! Concrete profiles used by examples, counterexamples and witnesses. -/

/-- A 100-second Full-HD profile. -/
def m100 : VideoMetadata :=
  { duration := 100, width := 1920, height := 1080, fps := 30, codec := "h264"
    format := "mp4", bitrate := 1000, hasAudio := false, audioCodec := none
    fileSize := none }

/-- A profile agreeing with `m100` on duration but differing elsewhere. -/
def m100b : VideoMetadata :=
  { duration := 100, width := 1280, height := 720, fps := 24, codec := "vp9"
    format := "webm", bitrate := 500, hasAudio := true, audioCodec := some "opus"
    fileSize := some 7 }

/-- A 45-second profile. -/
def m45 : VideoMetadata :=
  { duration := 45, width := 1920, height := 1080, fps := 30, codec := "h264"
    format := "mp4", bitrate := 1000, hasAudio := true, audioCodec := some "aac"
    fileSize := none }

/-- A profile with no audio track. -/
def mNoAudio : VideoMetadata :=
  { duration := 60, width := 640, height := 480, fps := 25, codec := "h264"
    format := "mp4", bitrate := 800, hasAudio := false, audioCodec := none
    fileSize := none }

/-- A frame reference whose estimated cost alone crosses the warning threshold. -/
def bigFrameRef : FrameReference :=
  { index := 0, timestamp := 0, timestampFormatted := "0:00"
    resolution := "1920x1080", estimatedTokens := 60000 }

/-- One hundred requested timestamps `0, 1, ..., 99`. -/
def ts100 : List ℚ := (List.range 100).map (fun i => (i : ℚ))

/-- A stand-in single-frame extractor used to instantiate the batch handler. -/
def stubExtract (t : ℚ) : FrameData :=
  { index := 0, timestamp := t, timestampFormatted := formatTimestamp t
    resolution := "1920x1080", estimatedTokens := 0, base64 := ""
    mimeType := "image/jpeg" }

/-- The effect trace of each tool handler: the file-existence check, then
the effects of the processor methods the handler invokes. -/
def toolEffects : ToolCall → List Effect
  | ToolCall.overviewCall _ _ _ => [Effect.accessCheck] ++ getVideoOverviewEffects
  | ToolCall.metadataCall _ _ =>
    [Effect.accessCheck] ++ getMetadataEffects ++ getMetadataSummaryEffects
  | ToolCall.estimateCall _ _ _ => [Effect.accessCheck] ++ getMetadataEffects
  | ToolCall.frameCall _ _ _ _ _ _ _ => [Effect.accessCheck] ++ extractSingleFrameEffects
  | ToolCall.batchCall _ ts =>
    [Effect.accessCheck] ++ ((ts.take 5).map (fun _ => extractSingleFrameEffects)).flatten
  | ToolCall.audioCall m ap => (extractAudioHandler m ap).2

/-- C1: for every video path, frame count and probed profile, the overview
operation's effect trace contains no frame decode and no audio extraction —
every effect it performs is the handler's file check, a metadata probe or a
file stat.  The planner, token estimator and hint generator it composes are
pure functions in this embedding. -/
theorem overview_never_extracts (p : String) (n : ℕ) (m : VideoMetadata) :
    Effect.decodeFrame ∉ toolEffects (ToolCall.overviewCall p n m) ∧
    Effect.audioExtract ∉ toolEffects (ToolCall.overviewCall p n m) ∧
    (toolEffects (ToolCall.overviewCall p n m)).all
      (fun e => decide (e = Effect.accessCheck ∨ e = Effect.probe ∨
        e = Effect.statFile)) = true := by
  have h : toolEffects (ToolCall.overviewCall p n m) =
      [Effect.accessCheck] ++ getVideoOverviewEffects := rfl
  rw [h]
  exact ⟨by decide, by decide, by decide⟩

/-- C4: the batch handler extracts exactly the first five requested
timestamps in the caller's order, never more than five frames, and reports
both the fulfilled and the requested counts; with 100 requested timestamps
it fulfils 5 of 100. -/
theorem getFramesBatch_spec :
    (∀ (ex : ℚ → FrameData) (ts : List ℚ),
      (getFramesBatch ex ts).frames = (ts.take 5).map ex ∧
      (getFramesBatch ex ts).frames.length ≤ 5 ∧
      (getFramesBatch ex ts).framesExtracted = (getFramesBatch ex ts).frames.length ∧
      (getFramesBatch ex ts).totalTimestampsRequested = ts.length) ∧
    (getFramesBatch stubExtract ts100).framesExtracted = 5 ∧
    (getFramesBatch stubExtract ts100).totalTimestampsRequested = 100 := by
  refine ⟨fun ex ts => ⟨rfl, ?_, rfl, rfl⟩, ?_, ?_⟩
  · simp only [getFramesBatch, List.length_map, List.length_take]
    exact min_le_left 5 ts.length
  · decide
  · decide

/-- C8 counterexample: at width 0 — a reachable profile value — the frame
estimator does not return a non-negative integer: the source's division
yields `NaN`, which propagates to the result (`none` in this model). -/
theorem estimateFrameTokens_nan_at_zero_width :
    estimateFrameTokensJS 0 1080 = none := by
  simp [estimateFrameTokensJS]

/-- C8 amended: for every width at least 1 the frame estimator's JavaScript
arithmetic is finite and returns a non-negative integer, and the
encoded-length estimator returns a non-negative integer for every input;
at width 0 the frame estimator returns `NaN` instead. -/
theorem estimators_nonneg_of_width_pos :
    (∀ (w h : ℕ), 1 ≤ w →
      estimateFrameTokensJS w h = some (estimateFrameTokens w h) ∧
      0 ≤ estimateFrameTokens w h) ∧
    ∀ len : ℕ, 0 ≤ estimateBase64Tokens len := by
  refine ⟨fun w h hw => ⟨?_, ?_⟩, fun len => ?_⟩
  · rw [estimateFrameTokensJS, if_neg (Nat.one_le_iff_ne_zero.mp hw)]
  · have hround : (0 : ℤ) ≤ round (((min w 1920 : ℕ) : ℚ) * (h : ℚ) / (w : ℚ)) := by
      rw [round_eq]
      refine Int.floor_nonneg.mpr (add_nonneg (by positivity) (by norm_num))
    have hcast : (0 : ℚ) ≤ ((round (((min w 1920 : ℕ) : ℚ) * (h : ℚ) / (w : ℚ)) : ℤ) : ℚ) :=
      Int.cast_nonneg.mpr hround
    refine Int.ceil_nonneg ?_
    simp only [estimateFrameTokens, TOKENS_PER_KB_BASE64, TOKENS_PER_CHAR]
    have hbase : (0 : ℚ) ≤ ((min w 1920 : ℕ) : ℚ) := by positivity
    have h1 : (0 : ℚ) ≤ ((min w 1920 : ℕ) : ℚ) *
        ((round (((min w 1920 : ℕ) : ℚ) * (h : ℚ) / (w : ℚ)) : ℤ) : ℚ) * (1 / 10) :=
      mul_nonneg (mul_nonneg hbase hcast) (by norm_num)
    have h2 : (0 : ℚ) ≤ ((min w 1920 : ℕ) : ℚ) *
        ((round (((min w 1920 : ℕ) : ℚ) * (h : ℚ) / (w : ℚ)) : ℤ) : ℚ) * (1 / 10) / 1024 :=
      div_nonneg h1 (by norm_num)
    have h3 := mul_nonneg (mul_nonneg (mul_nonneg h2 (by norm_num : (0:ℚ) ≤ 133 / 100))
      (by norm_num : (0:ℚ) ≤ 1000)) (by norm_num : (0:ℚ) ≤ 1 / 4)
    exact h3
  · refine Int.ceil_nonneg ?_
    simp only [estimateBase64Tokens, TOKENS_PER_KB_BASE64, TOKENS_PER_CHAR]
    positivity

/-- Witness for `estimators_nonneg_of_width_pos` at 1920×1080: the width
hypothesis holds, the JavaScript arithmetic is finite there, and the
estimate is non-negative. -/
theorem estimators_nonneg_of_width_pos_witness :
    1 ≤ 1920 ∧
    estimateFrameTokensJS 1920 1080 = some (estimateFrameTokens 1920 1080) ∧
    0 ≤ estimateFrameTokens 1920 1080 :=
  ⟨by decide,
   (estimators_nonneg_of_width_pos.1 1920 1080 (by decide)).1,
   (estimators_nonneg_of_width_pos.1 1920 1080 (by decide)).2⟩

/-- C10: no tool's returned output depends on the frame-reference cache —
running any tool on two arbitrary cache states yields identical outputs —
and every tool either leaves the cache unchanged or overwrites one path's
entry (the overview's `set`); the cache is never read. -/
theorem cache_never_read :
    (∀ (t : ToolCall) (c₁ c₂ : Cache), (runTool t c₁).1 = (runTool t c₂).1) ∧
    (∀ (t : ToolCall) (c : Cache), (runTool t c).2 = c ∨
      ∃ p v, (runTool t c).2 = cacheSet c p v) := by
  constructor
  · intro t c₁ c₂
    cases t <;> rfl
  · intro t c
    cases t <;> first
      | exact Or.inl rfl
      | exact Or.inr ⟨_, _, rfl⟩

/-- The planner loop unrolls to `takeWhile` of the timestamp bound over the
index range starting at `i`. -/
lemma planFramesGo_eq (m : VideoMetadata) (ivl : ℤ) :
    ∀ (k i : ℕ), planFramesGo m ivl k i =
      ((List.range' i k).takeWhile
        (fun (j : ℕ) => decide ((j : ℚ) * ((ivl : ℤ) : ℚ) < m.duration))).map (mkFrameRef m ivl)
  | 0, _ => by simp [planFramesGo]
  | k + 1, i => by
    rw [List.range'_succ, List.takeWhile_cons]
    by_cases h : (i : ℚ) * ((ivl : ℤ) : ℚ) < m.duration
    · rw [if_pos (decide_eq_true h)]
      simp only [planFramesGo, if_pos h, List.map_cons, planFramesGo_eq m ivl k (i + 1)]
    · rw [if_neg (by simpa using h)]
      simp [planFramesGo, h]

/-- The planner's emitted timestamps are exactly `i * interval` for the
initial indices whose timestamp is below the duration. -/
lemma planFrames_timestamps (m : VideoMetadata) (n : ℕ) :
    (planFrames m n).map FrameReference.timestamp =
      ((List.range n).takeWhile
        (fun (j : ℕ) => decide ((j : ℚ) * ((frameInterval m n : ℤ) : ℚ) < m.duration))).map
        (fun (j : ℕ) => (j : ℚ) * ((frameInterval m n : ℤ) : ℚ)) := by
  rw [planFrames, planFramesGo_eq m (frameInterval m n) n 0, ← List.range_eq_range',
    List.map_map]
  rfl

/-- C2: the planner's interval is `max 1 ⌊duration / requestedCount⌋`; it
emits timestamps `i * interval` for the initial run of indices `i < n`
whose timestamp is strictly below the duration (and no timestamp it emits
reaches the duration); the timestamps are a function of the duration and
the requested count alone; and at duration 100 with 10 requested frames it
yields exactly the 10 references at 0, 10, ..., 90. -/
theorem planFrames_spec :
    (∀ (m : VideoMetadata) (n : ℕ),
      frameInterval m n = max 1 ⌊m.duration / (n : ℚ)⌋ ∧
      (planFrames m n).map FrameReference.timestamp =
        ((List.range n).takeWhile
          (fun (j : ℕ) => decide ((j : ℚ) * ((frameInterval m n : ℤ) : ℚ) < m.duration))).map
          (fun (j : ℕ) => (j : ℚ) * ((frameInterval m n : ℤ) : ℚ)) ∧
      (planFrames m n).all (fun r => decide (r.timestamp < m.duration)) = true ∧
      ∀ m₂ : VideoMetadata, m₂.duration = m.duration →
        (planFrames m₂ n).map FrameReference.timestamp =
          (planFrames m n).map FrameReference.timestamp) ∧
    (planFrames m100 10).map FrameReference.timestamp =
      [0, 10, 20, 30, 40, 50, 60, 70, 80, 90] ∧
    (planFrames m100 10).length = 10 := by
  have hivl : frameInterval m100 10 = 10 := by
    have h : ⌊m100.duration / ((10 : ℕ) : ℚ)⌋ = 10 := by
      rw [show m100.duration = 100 from rfl, Int.floor_eq_iff]
      norm_num
    rw [frameInterval, h]
    norm_num
  have htake100 : (List.range 10).takeWhile
      (fun (j : ℕ) => decide ((j : ℚ) * (((10 : ℤ)) : ℚ) < m100.duration)) = List.range 10 := by
    rw [List.takeWhile_eq_self_iff]
    intro x hx
    rw [List.mem_range] at hx
    rw [decide_eq_true_eq, show m100.duration = 100 from rfl]
    have hx9 : (x : ℚ) ≤ 9 := by exact_mod_cast Nat.lt_succ_iff.mp hx
    push_cast
    nlinarith
  refine ⟨fun m n => ⟨rfl, planFrames_timestamps m n, ?_, ?_⟩, ?_, ?_⟩
  · have hplan : planFrames m n =
        ((List.range n).takeWhile
          (fun (j : ℕ) => decide ((j : ℚ) * ((frameInterval m n : ℤ) : ℚ) < m.duration))).map
          (mkFrameRef m (frameInterval m n)) := by
      rw [planFrames, planFramesGo_eq m (frameInterval m n) n 0, ← List.range_eq_range']
    rw [hplan, List.all_eq_true]
    intro r hr
    rw [List.mem_map] at hr
    obtain ⟨j, hj, rfl⟩ := hr
    have hp := List.mem_takeWhile_imp hj
    simpa [mkFrameRef] using hp
  · intro m₂ hdur
    have hivl2 : frameInterval m₂ n = frameInterval m n := by
      rw [frameInterval, frameInterval, hdur]
    rw [planFrames_timestamps, planFrames_timestamps, hivl2, hdur]
  · rw [planFrames_timestamps, hivl, htake100]
    rw [show List.range 10 = [0, 1, 2, 3, 4, 5, 6, 7, 8, 9] from rfl]
    norm_num
  · have h := congrArg List.length (planFrames_timestamps m100 10)
    rw [hivl, htake100] at h
    simp only [List.length_map, List.length_range] at h
    exact h

/-- Witness for the hypothesis-bearing part of `planFrames_spec`: two
profiles sharing duration 100 plan identical timestamps. -/
theorem planFrames_spec_witness :
    m100b.duration = m100.duration ∧
    (planFrames m100b 10).map FrameReference.timestamp =
      (planFrames m100 10).map FrameReference.timestamp :=
  ⟨rfl, (planFrames_spec.1 m100 10).2.2.2 m100b rfl⟩

/-- The hint array is built in strictly descending priority order
(10, 8, 5, 3), so it is already sorted before the final sort runs. -/
lemma preHints_sorted (m : VideoMetadata) (frames : List FrameReference) :
    List.Sorted hintLE (preHints m frames) := by
  unfold preHints
  by_cases h1 : WARNING_TOKEN_THRESHOLD < totalFrameTokens frames <;>
    by_cases h2 : (300 : ℚ) < m.duration <;>
      by_cases h3 : m.hasAudio = true <;>
        simp [h1, h2, h3, List.sorted_cons, hintLE, warnHint, progressiveHint,
          audioInfoHint, actionHint]

/-- The stable sort of an already-descending array is the array itself. -/
lemma generateContextHints_eq (m : VideoMetadata) (frames : List FrameReference) :
    generateContextHints m frames = preHints m frames :=
  List.Sorted.insertionSort_eq (preHints_sorted m frames)

/-- C3: the hint generator's output is sorted by descending priority, always
contains the baseline priority-3 action hint, contains a priority-10
warning hint exactly when the summed frame estimates exceed the 50000-token
threshold, and in that case the warning hint is the first element. -/
theorem generateContextHints_spec (m : VideoMetadata) (frames : List FrameReference) :
    List.Sorted hintLE (generateContextHints m frames) ∧
    (actionHint ∈ generateContextHints m frames ∧
      actionHint.type = HintType.action ∧ actionHint.priority = 3) ∧
    ((∃ h, h ∈ generateContextHints m frames ∧
        h.type = HintType.warning ∧ h.priority = 10) ↔
      WARNING_TOKEN_THRESHOLD < totalFrameTokens frames) ∧
    (WARNING_TOKEN_THRESHOLD < totalFrameTokens frames →
      (generateContextHints m frames).head? = some (warnHint frames) ∧
      (warnHint frames).type = HintType.warning ∧ (warnHint frames).priority = 10) := by
  rw [generateContextHints_eq]
  refine ⟨generateContextHints_eq m frames ▸ preHints_sorted m frames, ⟨?_, rfl, rfl⟩, ?_, ?_⟩
  · simp [preHints]
  · constructor
    · rintro ⟨h, hmem, htype, -⟩
      by_contra hw
      simp only [preHints, if_neg hw, List.nil_append, List.mem_append] at hmem
      rcases hmem with (hmem | hmem) | hmem
      · rcases List.mem_ite_nil_right.mp hmem with ⟨-, hmem⟩
        rw [List.mem_singleton] at hmem
        subst hmem
        exact absurd htype (by simp [progressiveHint])
      · rcases List.mem_ite_nil_right.mp hmem with ⟨-, hmem⟩
        rw [List.mem_singleton] at hmem
        subst hmem
        exact absurd htype (by simp [audioInfoHint])
      · rw [List.mem_singleton] at hmem
        subst hmem
        exact absurd htype (by simp [actionHint])
    · intro hw
      exact ⟨warnHint frames, by simp [preHints, hw], rfl, rfl⟩
  · intro hw
    refine ⟨?_, rfl, rfl⟩
    simp [preHints, hw]

/-- Witness for `generateContextHints_spec`: a single 60000-token frame
reference crosses the threshold and the warning hint leads the output. -/
theorem generateContextHints_spec_witness :
    WARNING_TOKEN_THRESHOLD < totalFrameTokens [bigFrameRef] ∧
    (generateContextHints m100 [bigFrameRef]).head? = some (warnHint [bigFrameRef]) :=
  ⟨by decide, ((generateContextHints_spec m100 [bigFrameRef]).2.2.2 (by decide)).1⟩

/-- C5: a single-frame fetch at a timestamp outside `[0, duration)` fails
with the decoder's seek-out-of-range extraction failure instead of
producing a frame artifact (the decoder's range contract is modelled from
the spec; `extractSingleFrame` propagates its rejection). -/
theorem get_frame_out_of_range_fails
    (duration timestamp : ℚ) (raw : List ℕ) (enc : List ℕ → String)
    (fw fh : ℕ) (fmt : String)
    (hout : timestamp < 0 ∨ duration ≤ timestamp) :
    extractSingleFrame (decodeFrameAt duration raw) enc fw fh fmt timestamp =
      Except.error ExtractionError.seekOutOfRange := by
  have hneg : ¬(0 ≤ timestamp ∧ timestamp < duration) := by
    rintro ⟨h0, h1⟩
    rcases hout with h | h
    · exact absurd h0 (not_le.mpr h)
    · exact absurd h1 (not_lt.mpr h)
  simp [extractSingleFrame, decodeFrameAt, hneg]

/-- Witness for `get_frame_out_of_range_fails`: timestamp 100 on a
50-second video is rejected. -/
theorem get_frame_out_of_range_fails_witness :
    ((100 : ℚ) < 0 ∨ (50 : ℚ) ≤ 100) ∧
    extractSingleFrame (decodeFrameAt 50 []) (fun _ => "") 0 0 "jpeg" 100 =
      Except.error ExtractionError.seekOutOfRange :=
  ⟨Or.inr (by decide),
   get_frame_out_of_range_fails 50 100 [] (fun _ => "") 0 0 "jpeg" (Or.inr (by decide))⟩

/-- C6: on a profile without an audio track the `extract_audio` handler
fails with the no-audio-track error before the extractor runs — its effect
trace contains no audio extraction, no temp-dir creation and no temp-file
write. -/
theorem extract_audio_no_track (m : VideoMetadata) (audioPath : String)
    (hna : m.hasAudio = false) :
    (extractAudioHandler m audioPath).1 =
      Except.error "Video does not have an audio track" ∧
    Effect.audioExtract ∉ (extractAudioHandler m audioPath).2 ∧
    Effect.mkdirTemp ∉ (extractAudioHandler m audioPath).2 ∧
    Effect.tempFileCreate ∉ (extractAudioHandler m audioPath).2 := by
  simp [extractAudioHandler, hna, getMetadataEffects]

/-- Witness for `extract_audio_no_track` on a concrete audio-less profile. -/
theorem extract_audio_no_track_witness :
    mNoAudio.hasAudio = false ∧
    (extractAudioHandler mNoAudio "out.mp3").1 =
      Except.error "Video does not have an audio track" ∧
    Effect.audioExtract ∉ (extractAudioHandler mNoAudio "out.mp3").2 :=
  ⟨rfl, (extract_audio_no_track mNoAudio "out.mp3" rfl).1,
   (extract_audio_no_track mNoAudio "out.mp3" rfl).2.1⟩

/-- Evaluation scheme for `estimateFrameTokens`: supply the rounded
effective height and the final ceiling. -/
lemma estimateFrameTokens_eval (w h : ℕ) (eH t : ℤ)
    (h2 : round (((min w 1920 : ℕ) : ℚ) * (h : ℚ) / (w : ℚ)) = eH)
    (h3 : ⌈(((min w 1920 : ℕ) : ℚ) * (eH : ℚ) * (1 / 10)) / 1024 *
        TOKENS_PER_KB_BASE64 * 1000 * TOKENS_PER_CHAR⌉ = t) :
    estimateFrameTokens w h = t := by
  simp only [estimateFrameTokens]
  rw [h2, h3]

/-- A 3840×1000 frame is estimated at 31172 tokens (the width clamp maps it
to an effective 1920×500). -/
lemma estimateFrameTokens_3840_1000 : estimateFrameTokens 3840 1000 = 31172 := by
  have hmin : min (3840 : ℕ) 1920 = 1920 := min_eq_right (by norm_num)
  refine estimateFrameTokens_eval 3840 1000 500 31172 ?_ ?_
  · have harg : ((min (3840 : ℕ) 1920 : ℕ) : ℚ) * ((1000 : ℕ) : ℚ) / ((3840 : ℕ) : ℚ) = 500 := by
      rw [hmin]
      push_cast
      norm_num
    rw [harg, round_eq, Int.floor_eq_iff]
    norm_num
  · have harg : (((min (3840 : ℕ) 1920 : ℕ) : ℚ) * ((500 : ℤ) : ℚ) * (1 / 10)) / 1024 *
        TOKENS_PER_KB_BASE64 * 1000 * TOKENS_PER_CHAR = 249375 / 8 := by
      rw [hmin]
      push_cast
      norm_num [TOKENS_PER_KB_BASE64, TOKENS_PER_CHAR]
    rw [harg, Int.ceil_eq_iff]
    norm_num

/-- A 1920×1000 frame is estimated at 62344 tokens. -/
lemma estimateFrameTokens_1920_1000 : estimateFrameTokens 1920 1000 = 62344 := by
  have hmin : min (1920 : ℕ) 1920 = 1920 := min_self 1920
  refine estimateFrameTokens_eval 1920 1000 1000 62344 ?_ ?_
  · have harg : ((min (1920 : ℕ) 1920 : ℕ) : ℚ) * ((1000 : ℕ) : ℚ) / ((1920 : ℕ) : ℚ) = 1000 := by
      rw [hmin]
      push_cast
      norm_num
    rw [harg, round_eq, Int.floor_eq_iff]
    norm_num
  · have harg : (((min (1920 : ℕ) 1920 : ℕ) : ℚ) * ((1000 : ℤ) : ℚ) * (1 / 10)) / 1024 *
        TOKENS_PER_KB_BASE64 * 1000 * TOKENS_PER_CHAR = 498750 / 8 := by
      rw [hmin]
      push_cast
      norm_num [TOKENS_PER_KB_BASE64, TOKENS_PER_CHAR]
    rw [harg, Int.ceil_eq_iff]
    norm_num

/-- C7 counterexample: 3840×1000 has twice the pixel count of 1920×1000 yet
a strictly smaller token estimate, because the 1920-width clamp shrinks the
effective pixel count; the estimator is not monotone in raw pixel count. -/
theorem estimateFrameTokens_not_pixel_monotone :
    1920 * 1000 ≤ 3840 * 1000 ∧
    estimateFrameTokens 3840 1000 < estimateFrameTokens 1920 1000 := by
  refine ⟨by norm_num, ?_⟩
  rw [estimateFrameTokens_3840_1000, estimateFrameTokens_1920_1000]
  norm_num

/-- Below the width cap no clamping occurs and the estimate is the ceiling
of a fixed positive multiple of the true pixel count. -/
lemma estimateFrameTokens_of_width_le (w h : ℕ) (h1 : 1 ≤ w) (h2 : w ≤ 1920) :
    estimateFrameTokens w h =
      ⌈((w : ℚ) * (h : ℚ) * (1 / 10)) / 1024 *
        TOKENS_PER_KB_BASE64 * 1000 * TOKENS_PER_CHAR⌉ := by
  have hw0 : ((w : ℕ) : ℚ) ≠ 0 := by
    have : (0 : ℚ) < (w : ℚ) := by exact_mod_cast h1
    exact ne_of_gt this
  simp only [estimateFrameTokens]
  rw [min_eq_left h2, mul_div_cancel_left₀ _ hw0, round_natCast]
  congr 1

/-- C7 amended: the estimator is monotone in the effective (post-clamp)
pixel count; in particular, for resolutions whose widths do not exceed the
1920 clamp it is monotone in the true pixel count. -/
theorem estimateFrameTokens_monotone_below_cap (wA hA wB hB : ℕ)
    (hA1 : 1 ≤ wA) (hA2 : wA ≤ 1920) (hB1 : 1 ≤ wB) (hB2 : wB ≤ 1920)
    (hpix : wB * hB ≤ wA * hA) :
    estimateFrameTokens wB hB ≤ estimateFrameTokens wA hA := by
  rw [estimateFrameTokens_of_width_le wA hA hA1 hA2,
    estimateFrameTokens_of_width_le wB hB hB1 hB2]
  apply Int.ceil_mono
  have hc : (wB : ℚ) * (hB : ℚ) ≤ (wA : ℚ) * (hA : ℚ) := by exact_mod_cast hpix
  have key := mul_le_mul_of_nonneg_right hc
    (by norm_num [TOKENS_PER_KB_BASE64, TOKENS_PER_CHAR] :
      (0 : ℚ) ≤ 1 / 10 / 1024 * TOKENS_PER_KB_BASE64 * 1000 * TOKENS_PER_CHAR)
  simp only [TOKENS_PER_KB_BASE64, TOKENS_PER_CHAR] at key ⊢
  nlinarith [key]

/-- Witness for `estimateFrameTokens_monotone_below_cap` at 1920×1080
versus 1280×720. -/
theorem estimateFrameTokens_monotone_below_cap_witness :
    (1 ≤ 1920 ∧ 1920 ≤ 1920 ∧ 1 ≤ 1280 ∧ 1280 ≤ 1920 ∧
      1280 * 720 ≤ 1920 * 1080) ∧
    estimateFrameTokens 1280 720 ≤ estimateFrameTokens 1920 1080 :=
  ⟨by decide,
   estimateFrameTokens_monotone_below_cap 1920 1080 1280 720
     (by decide) (by decide) (by decide) (by decide) (by decide)⟩

/-- C9 counterexample: at duration 45 the summarizer takes the medium
branch (45 is not < 30), so the duration hint carries 15 frames with
integer interval `⌊45/15⌋ = 3` — not 10 frames with interval 4.5. -/
theorem analysisHints_45s_counterexample :
    (generateAnalysisHints m45).map AnalysisHint.parameters =
      [some (HintParams.frames 15 3), none] ∧
    some (HintParams.frames 15 3) ≠ some (HintParams.frames 10 (9 / 2)) := by
  constructor
  · have h30 : ¬ m45.duration < 30 := by
      rw [show m45.duration = (45 : ℚ) from rfl]
      norm_num
    have h300 : m45.duration < 300 := by
      rw [show m45.duration = (45 : ℚ) from rfl]
      norm_num
    have hw : ¬ (1920 < m45.width) := by decide
    have hfloor : (⌊m45.duration / 15⌋ : ℤ) = 3 := by
      rw [show m45.duration = (45 : ℚ) from rfl, Int.floor_eq_iff]
      norm_num
    simp only [generateAnalysisHints]
    rw [if_neg h30, if_pos h300, if_neg hw, if_pos (show m45.hasAudio = true from rfl), hfloor]
    simp
  · intro hcon
    rw [Option.some_inj] at hcon
    have := congrArg (fun p => match p with
      | HintParams.frames _ i => i
      | HintParams.width _ => 0) hcon
    norm_num at this

/-- C9 amended: for any profile of duration 45 the first analysis hint is
the medium-branch duration hint recommending 15 frames at interval 3; the
non-integer `duration/10` interval belongs only to the sub-30-second
branch. -/
theorem analysisHints_45s_medium (m : VideoMetadata) (hd : m.duration = 45) :
    (generateAnalysisHints m).head? = some
      { aspect := "duration"
        recommendation := "Medium video - sample frames at regular intervals"
        parameters := some (HintParams.frames 15 3) } := by
  have h30 : ¬ m.duration < 30 := by
    rw [hd]
    norm_num
  have h300 : m.duration < 300 := by
    rw [hd]
    norm_num
  have hfloor : (⌊m.duration / 15⌋ : ℤ) = 3 := by
    rw [hd, Int.floor_eq_iff]
    norm_num
  simp only [generateAnalysisHints]
  rw [if_neg h30, if_pos h300, hfloor]
  simp

/-- Witness for `analysisHints_45s_medium` at the concrete 45-second
profile. -/
theorem analysisHints_45s_medium_witness :
    m45.duration = 45 ∧
    (generateAnalysisHints m45).head? = some
      { aspect := "duration"
        recommendation := "Medium video - sample frames at regular intervals"
        parameters := some (HintParams.frames 15 3) } :=
  ⟨rfl, analysisHints_45s_medium m45 rfl⟩

end VideoReader
